import Mathlib

/-!
Shallow embedding of `src/MP3Player.py`, a tkinter + pygame.mixer MP3 player.

The program's state is three module-scoped variables (`current_file`,
`is_playing`, `is_looping`) plus the observable widget texts and the
pygame mixer.  Each button callback is embedded as a pure function
`AppState → AppState × List MixerCall`, returning the updated state and
the list of `pg.mixer.music.*` calls issued, in source order.  Inputs the
GUI supplies (the file-dialog result, the slider value, whether the
installed pygame accepts the `start` argument of `play`) are explicit
parameters.
-/

namespace MP3Player

/-- A call into `pg.mixer.music`, as issued by the handlers. -/
inductive MixerCall where
  | load (path : String)
  | play (loops : Int) (start : Option ℚ)
  | pause
  | unpause
  | stop
  | rewind
  | set_volume (gain : ℚ)
  deriving Repr, DecidableEq

/-- Observable state of the pygame mixer: whether music is busy
(`pg.mixer.music.get_busy()`), the current gain, and the playback
position (tracked only to follow rewind/seek/stop semantics). -/
structure Mixer where
  busy : Bool
  volume : ℚ
  pos : ℚ
  deriving Repr, DecidableEq

/-- Effect of one mixer call on the mixer, following pygame semantics:
`play` (re)starts from its `start` offset (default the beginning) and
makes the stream busy; `stop` halts it and resets the position; `rewind`
resets the position; `pause`/`unpause` do not change `get_busy` (SDL
counts paused music as playing, the behaviour the source relies on). -/
def Mixer.apply (m : Mixer) : MixerCall → Mixer
  | MixerCall.load _ => { m with busy := false, pos := 0 }
  | MixerCall.play _ st => { m with busy := true, pos := st.getD 0 }
  | MixerCall.pause => m
  | MixerCall.unpause => { m with busy := true }
  | MixerCall.stop => { m with busy := false, pos := 0 }
  | MixerCall.rewind => { m with pos := 0 }
  | MixerCall.set_volume g => { m with volume := g }

/-- The whole application state: the three flags, the mixer, the slider
position (`volume_scale.get()`), and the widget texts the handlers set. -/
structure AppState where
  current_file : Option String
  is_playing : Bool
  is_looping : Bool
  mixer : Mixer
  slider : ℚ
  file_label : String
  play_pause_button : String
  loop_button_text : String
  loop_button_sunken : Bool
  loop_button_bg : String
  deriving Repr, DecidableEq

/-- Python truthiness of `current_file`: `None` and the empty string are
falsy (`if not current_file:` / `if current_file:`). -/
def truthy : Option String → Bool
  | none => false
  | some s => s != ""

/-- Tail of the path, as in `current_file.split('/')[-1]`. -/
def basename (p : String) : String := (p.splitOn "/").getLastD ""

/-- Displayed file name of the loaded file (empty if none). -/
def fileName : Option String → String
  | none => ""
  | some p => basename p

def warnOpenFileText : String := "⚠️ まずMP3ファイルを開いてください"

def pauseText : String := "一時停止"

def resumeText : String := "再開"

def playText : String := "再生"

def loopOnText : String := "🔁 ループ: ON"

def loopOffText : String := "▶️ ループ: OFF"

def defaultBg : String := "SystemButtonFace"

def loadLabel (p : String) : String := "ロード中: " ++ basename p

def seekFwdLabel (p : String) : String := "5秒へシーク: " ++ basename p

def seekStartLabel (p : String) : String := "先頭に戻る: " ++ basename p

def initLabelText : String := "MP3ファイルを開いてください"

/-- `open_file()`: `file_path` is what `filedialog.askopenfilename`
returned (the empty string when the user cancels).  Only a truthy path is
processed: it becomes `current_file`, is loaded, the label shows its
basename and the mixer volume is set from the slider. -/
def open_file (s : AppState) (file_path : String) : AppState × List MixerCall :=
  if file_path != "" then
    let m1 := s.mixer.apply (MixerCall.load file_path)
    let m2 := m1.apply (MixerCall.set_volume (s.slider / 100))
    ({ s with current_file := some file_path, mixer := m2,
              file_label := loadLabel file_path },
     [MixerCall.load file_path, MixerCall.set_volume (s.slider / 100)])
  else (s, [])

/-- `toggle_loop()`: flips `is_looping`, restyles the loop button and, if
music is busy, restarts playback with the new loop count. -/
def toggle_loop (s : AppState) : AppState × List MixerCall :=
  if !s.is_looping then
    let s1 := { s with is_looping := true, loop_button_text := loopOnText,
                       loop_button_sunken := true, loop_button_bg := "lightblue" }
    if s.mixer.busy then
      ({ s1 with mixer := s1.mixer.apply (MixerCall.play (-1) none) },
       [MixerCall.play (-1) none])
    else (s1, [])
  else
    let s1 := { s with is_looping := false, loop_button_text := loopOffText,
                       loop_button_sunken := false, loop_button_bg := defaultBg }
    if s.mixer.busy then
      ({ s1 with mixer := s1.mixer.apply (MixerCall.play 0 none) },
       [MixerCall.play 0 none])
    else (s1, [])

/-- `play_pause()`: warn and return if no file is loaded; otherwise the
three-way branch on `(get_busy, is_playing)`. -/
def play_pause (s : AppState) : AppState × List MixerCall :=
  if !(truthy s.current_file) then
    ({ s with file_label := warnOpenFileText }, [])
  else if !s.mixer.busy && !s.is_playing then
    let loops : Int := if s.is_looping then -1 else 0
    ({ s with mixer := s.mixer.apply (MixerCall.play loops none),
              play_pause_button := pauseText, is_playing := true },
     [MixerCall.play loops none])
  else if s.is_playing then
    ({ s with mixer := s.mixer.apply MixerCall.pause,
              play_pause_button := resumeText, is_playing := false },
     [MixerCall.pause])
  else
    ({ s with mixer := s.mixer.apply MixerCall.unpause,
              play_pause_button := pauseText, is_playing := true },
     [MixerCall.unpause])

/-- `stop_music()`: if busy or flagged playing, stop the mixer, restore
the play label and clear `is_playing`. -/
def stop_music (s : AppState) : AppState × List MixerCall :=
  if s.mixer.busy || s.is_playing then
    ({ s with mixer := s.mixer.apply MixerCall.stop,
              play_pause_button := playText, is_playing := false },
     [MixerCall.stop])
  else (s, [])

/-- `set_volume(val)`: the slider callback; divides the value by 100 and
applies it as the mixer gain. -/
def set_volume (s : AppState) (val : ℚ) : AppState × List MixerCall :=
  let volume := val / 100
  ({ s with mixer := s.mixer.apply (MixerCall.set_volume volume) },
   [MixerCall.set_volume volume])

/-- `seek_forward_5()`: rewind, then `play(loops, start=5.0)`;
`startSupported` is false when that raises `TypeError` (old pygame), in
which case the `except` branch plays without the offset.  Either way the
pause label, `is_playing` and the seek message are set. -/
def seek_forward_5 (s : AppState) (startSupported : Bool) : AppState × List MixerCall :=
  if truthy s.current_file then
    let m1 := s.mixer.apply MixerCall.rewind
    let loops : Int := if s.is_looping then -1 else 0
    let c := if startSupported then MixerCall.play loops (some 5)
             else MixerCall.play loops none
    ({ s with mixer := m1.apply c, play_pause_button := pauseText,
              is_playing := true,
              file_label := seekFwdLabel (fileName s.current_file) },
     [MixerCall.rewind, c])
  else (s, [])

/-- `seek_to_start()`: rewind and show the message; if flagged playing,
restart with `start=0.0` (same `TypeError` fallback as the 5s seek). -/
def seek_to_start (s : AppState) (startSupported : Bool) : AppState × List MixerCall :=
  if truthy s.current_file then
    let m1 := s.mixer.apply MixerCall.rewind
    let s1 := { s with mixer := m1,
                       file_label := seekStartLabel (fileName s.current_file) }
    if s.is_playing then
      let loops : Int := if s.is_looping then -1 else 0
      let c := if startSupported then MixerCall.play loops (some 0)
               else MixerCall.play loops none
      ({ s1 with mixer := s1.mixer.apply c }, [MixerCall.rewind, c])
    else (s1, [MixerCall.rewind])
  else (s, [])

/-- The state right after the script's toplevel runs: no file, not
playing, not looping, mixer idle, slider set to 50 (which fires the
volume callback, so gain 1/2). -/
def initState : AppState :=
  { current_file := none, is_playing := false, is_looping := false,
    mixer := { busy := false, volume := 1/2, pos := 0 }, slider := 50,
    file_label := initLabelText, play_pause_button := playText,
    loop_button_text := loopOffText, loop_button_sunken := false,
    loop_button_bg := defaultBg }

/-- One GUI event: a button callback, a slider move (which updates the
widget value and fires `set_volume` with it), a file dialog returning
`path`, or the external event of the track finishing (the mixer stops
being busy on its own). -/
inductive Step : AppState → AppState → Prop where
  | open_step (s : AppState) (path : String) : Step s (open_file s path).1
  | play_step (s : AppState) : Step s (play_pause s).1
  | stop_step (s : AppState) : Step s (stop_music s).1
  | loop_step (s : AppState) : Step s (toggle_loop s).1
  | volume_step (s : AppState) (v : ℚ) :
      Step s (set_volume { s with slider := v } v).1
  | seek_start_step (s : AppState) (b : Bool) : Step s (seek_to_start s b).1
  | seek_fwd_step (s : AppState) (b : Bool) : Step s (seek_forward_5 s b).1
  | track_end_step (s : AppState) :
      Step s { s with mixer := { s.mixer with busy := false } }

/-- States the application can be in after any sequence of events. -/
def Reachable (s : AppState) : Prop :=
  Relation.ReflTransGen Step initState s

/-- Claim C1: when `current_file` is unset, `play_pause` leaves
`is_playing` unchanged, issues no mixer call, and sets the file label to
the "please open a file" warning. -/
theorem C1_play_pause_no_file (s : AppState) (h : s.current_file = none) :
    (play_pause s).1.is_playing = s.is_playing ∧
    (play_pause s).2 = [] ∧
    (play_pause s).1.file_label = warnOpenFileText := by
  simp [play_pause, truthy, h]

theorem C1_witness :
    initState.current_file = none ∧
    (play_pause initState).1.is_playing = initState.is_playing ∧
    (play_pause initState).2 = [] ∧
    (play_pause initState).1.file_label = warnOpenFileText :=
  ⟨rfl, C1_play_pause_no_file initState rfl⟩

/-- Claim C2: with a file loaded, `play_pause` is the three-way branch on
`(mixer busy, is_playing)`: not busy and not playing starts playback with
loop count -1 iff `is_looping` and sets `is_playing` and the pause label;
playing pauses, clears `is_playing` and shows the resume label; otherwise
it unpauses, sets `is_playing` and the pause label. -/
theorem C2_play_pause_branches (s : AppState) (h : truthy s.current_file = true) :
    (s.mixer.busy = false → s.is_playing = false →
      (play_pause s).2 = [MixerCall.play (if s.is_looping then -1 else 0) none] ∧
      (play_pause s).1.is_playing = true ∧
      (play_pause s).1.play_pause_button = pauseText) ∧
    (s.is_playing = true →
      (play_pause s).2 = [MixerCall.pause] ∧
      (play_pause s).1.is_playing = false ∧
      (play_pause s).1.play_pause_button = resumeText) ∧
    (s.mixer.busy = true → s.is_playing = false →
      (play_pause s).2 = [MixerCall.unpause] ∧
      (play_pause s).1.is_playing = true ∧
      (play_pause s).1.play_pause_button = pauseText) := by
  refine ⟨?_, ?_, ?_⟩ <;> intros <;> simp_all [play_pause]

theorem C2_witness :
    (play_pause { initState with current_file := some "a.mp3" }).2
      = [MixerCall.play 0 none] ∧
    (play_pause { initState with current_file := some "a.mp3" }).1.is_playing
      = true := by
  have h := C2_play_pause_branches { initState with current_file := some "a.mp3" }
    (by decide)
  exact ⟨by simpa using (h.1 rfl rfl).1, (h.1 rfl rfl).2.1⟩

/-- Claim C3: with a file loaded and `is_playing` true, `play_pause`
clears `is_playing`, shows the resume label, and issues exactly the
mixer's pause call — in particular never its stop call. -/
theorem C3_pause_not_stop (s : AppState) (h : truthy s.current_file = true)
    (hp : s.is_playing = true) :
    (play_pause s).1.is_playing = false ∧
    (play_pause s).1.play_pause_button = resumeText ∧
    (play_pause s).2 = [MixerCall.pause] ∧
    MixerCall.stop ∉ (play_pause s).2 := by
  simp_all [play_pause]

theorem C3_witness :
    (play_pause { initState with current_file := some "a.mp3",
                                 is_playing := true }).1.is_playing = false ∧
    (play_pause { initState with current_file := some "a.mp3",
                                 is_playing := true }).2 = [MixerCall.pause] := by
  have h := C3_pause_not_stop
    { initState with current_file := some "a.mp3", is_playing := true }
    (by decide) rfl
  exact ⟨h.1, h.2.2.1⟩

/-- Claim C4: after `stop_music`, `is_playing` is false for every prior
state; the mixer is left not busy, and any subsequent default play starts
from position 0 (the beginning of the track). -/
theorem C4_stop_music (s : AppState) (loops : Int) :
    (stop_music s).1.is_playing = false ∧
    (stop_music s).1.mixer.busy = false ∧
    ((stop_music s).1.mixer.apply (MixerCall.play loops none)).pos = 0 := by
  unfold stop_music
  split <;> simp_all [Mixer.apply]

/-- Claim C5: for a slider value v in 0..100, `set_volume` issues exactly
one mixer gain call with gain v / 100 — 0 maps to 0, 50 to 1/2, 100
to 1. -/
theorem C5_set_volume (s : AppState) (v : ℚ) (h0 : 0 ≤ v) (h1 : v ≤ 100) :
    (set_volume s v).2 = [MixerCall.set_volume (v / 100)] ∧
    (set_volume s v).1.mixer.volume = v / 100 ∧
    (set_volume s v).1 = { s with mixer := { s.mixer with volume := v / 100 } } := by
  refine ⟨rfl, rfl, rfl⟩

theorem C5_witness :
    (set_volume initState 0).1.mixer.volume = 0 ∧
    (set_volume initState 50).1.mixer.volume = 1/2 ∧
    (set_volume initState 100).1.mixer.volume = 1 := by
  refine ⟨?_, ?_, ?_⟩
  · have h := C5_set_volume initState 0 (by norm_num) (by norm_num)
    rw [h.2.1]; norm_num
  · have h := C5_set_volume initState 50 (by norm_num) (by norm_num)
    rw [h.2.1]; norm_num
  · have h := C5_set_volume initState 100 (by norm_num) (by norm_num)
    rw [h.2.1]; norm_num

/-- Claim C6: a cancelled dialog (empty path) makes `open_file` a strict
no-op; a returned path replaces `current_file`, loads the file and sets
the mixer volume to the slider value divided by 100. -/
theorem C6_open_file (s : AppState) (p : String) :
    (p = "" → open_file s p = (s, [])) ∧
    (p ≠ "" →
      (open_file s p).1.current_file = some p ∧
      (open_file s p).2 = [MixerCall.load p, MixerCall.set_volume (s.slider / 100)] ∧
      (open_file s p).1.mixer.volume = s.slider / 100 ∧
      (open_file s p).1.file_label = loadLabel p) := by
  constructor
  · intro h; simp [open_file, h]
  · intro h; simp [open_file, h, Mixer.apply]

theorem C6_witness :
    open_file initState "" = (initState, []) ∧
    (open_file initState "/a/b.mp3").1.current_file = some "/a/b.mp3" ∧
    (open_file initState "/a/b.mp3").1.mixer.volume = 1/2 := by
  have h1 := (C6_open_file initState "").1 rfl
  have h2 := (C6_open_file initState "/a/b.mp3").2 (by decide)
  refine ⟨h1, h2.1, ?_⟩
  rw [h2.2.2.1]
  norm_num [initState]

/-- Claim C7: with a file loaded, when the mixer rejects the start offset
(`startSupported = false`), `seek_forward_5` plays from the beginning with
the same loop count as the supported case, returns normally, and still
shows the seek message. -/
theorem C7_seek_fallback (s : AppState) (h : truthy s.current_file = true) :
    (seek_forward_5 s false).2
      = [MixerCall.rewind, MixerCall.play (if s.is_looping then -1 else 0) none] ∧
    (seek_forward_5 s true).2
      = [MixerCall.rewind, MixerCall.play (if s.is_looping then -1 else 0) (some 5)] ∧
    (seek_forward_5 s false).1.file_label = seekFwdLabel (fileName s.current_file) ∧
    (seek_forward_5 s false).1.is_playing = true := by
  simp [seek_forward_5, h]

theorem C7_witness :
    (seek_forward_5 { initState with current_file := some "a.mp3" } false).2
      = [MixerCall.rewind, MixerCall.play 0 none] ∧
    (seek_forward_5 { initState with current_file := some "a.mp3" } false).1.file_label
      = seekFwdLabel (fileName (some "a.mp3")) := by
  have h := C7_seek_fallback { initState with current_file := some "a.mp3" } (by decide)
  exact ⟨by simpa using h.1, h.2.2.1⟩

lemma truthy_ne_none {o : Option String} (h : truthy o = true) : o ≠ none := by
  cases o <;> simp_all [truthy]

/-- Every event preserves "no file loaded implies the mixer is idle":
music only ever starts from handlers guarded by a loaded file (or when
the mixer was already busy). -/
lemma step_invFile {s t : AppState} (h : Step s t)
    (hs : s.current_file = none → s.mixer.busy = false) :
    t.current_file = none → t.mixer.busy = false := by
  cases h with
  | open_step path =>
      unfold open_file; split_ifs <;> intro hn <;> simp_all
  | play_step =>
      unfold play_pause; split_ifs <;> intro hn <;>
        simp_all [truthy, Mixer.apply]
  | stop_step =>
      unfold stop_music; split_ifs <;> intro hn <;> simp_all [Mixer.apply]
  | loop_step =>
      unfold toggle_loop; split_ifs <;> intro hn <;> simp_all [Mixer.apply]
  | volume_step v =>
      intro hn; simp_all [set_volume, Mixer.apply]
  | seek_start_step b =>
      unfold seek_to_start; split_ifs <;> intro hn <;>
        simp_all [truthy, Mixer.apply]
  | seek_fwd_step b =>
      unfold seek_forward_5; split_ifs <;> intro hn <;>
        simp_all [truthy, Mixer.apply]
  | track_end_step =>
      intro hn; rfl

lemma reachable_invFile {s : AppState} (h : Reachable s) :
    s.current_file = none → s.mixer.busy = false := by
  unfold Reachable at h
  induction h with
  | refl => intro _; rfl
  | tail _ hstep ih => exact step_invFile hstep ih

/-- Claim C8: in any reachable state with no file loaded (where the mixer
is necessarily idle), `toggle_loop` flips `is_looping` and restyles the
loop button, but issues no mixer call and leaves the mixer unchanged. -/
theorem C8_toggle_loop_no_file (s : AppState) (hr : Reachable s)
    (h : s.current_file = none) :
    (toggle_loop s).2 = [] ∧
    (toggle_loop s).1.mixer = s.mixer ∧
    (toggle_loop s).1.is_looping = !s.is_looping ∧
    (toggle_loop s).1.loop_button_text
      = (if s.is_looping then loopOffText else loopOnText) ∧
    (toggle_loop s).1.loop_button_sunken = !s.is_looping := by
  have hb := reachable_invFile hr h
  unfold toggle_loop
  split_ifs <;> simp_all

theorem C8_witness :
    (toggle_loop initState).2 = [] ∧
    (toggle_loop initState).1.is_looping = true ∧
    (toggle_loop initState).1.loop_button_text = loopOnText := by
  have h := C8_toggle_loop_no_file initState Relation.ReflTransGen.refl rfl
  exact ⟨h.1, by simpa using h.2.2.1, by simpa using h.2.2.2.1⟩

lemma step_keeps_file {s t : AppState} (h : Step s t)
    (hf : s.current_file ≠ none) : t.current_file ≠ none := by
  cases h with
  | open_step path =>
      unfold open_file; split_ifs <;> simp_all
  | play_step =>
      unfold play_pause; split_ifs <;> simp_all
  | stop_step =>
      unfold stop_music; split_ifs <;> simp_all
  | loop_step =>
      unfold toggle_loop; split_ifs <;> simp_all
  | volume_step v =>
      simp_all [set_volume]
  | seek_start_step b =>
      unfold seek_to_start; split_ifs <;> simp_all
  | seek_fwd_step b =>
      unfold seek_forward_5; split_ifs <;> simp_all
  | track_end_step =>
      exact hf

/-- Claim C9: once `current_file` is set, no sequence of events (any
handler, a later `open_file` included) ever resets it to unset. -/
theorem C9_file_never_cleared (s t : AppState) (h : s.current_file ≠ none)
    (hst : Relation.ReflTransGen Step s t) : t.current_file ≠ none := by
  induction hst with
  | refl => exact h
  | tail _ hstep ih => exact step_keeps_file hstep ih

theorem C9_witness :
    (play_pause { initState with current_file := some "a.mp3" }).1.current_file
      ≠ none :=
  C9_file_never_cleared { initState with current_file := some "a.mp3" } _
    (by simp) (Relation.ReflTransGen.single (Step.play_step _))

/-- Every event preserves "`is_playing` implies a file is loaded": the
only places that set `is_playing` are guarded by a truthy `current_file`,
and `current_file` is never cleared. -/
lemma step_invPlay {s t : AppState} (h : Step s t)
    (hs : s.is_playing = true → s.current_file ≠ none) :
    t.is_playing = true → t.current_file ≠ none := by
  cases h with
  | open_step path =>
      unfold open_file; split_ifs <;> intro hp <;> simp_all
  | play_step =>
      unfold play_pause
      split_ifs with h1 <;> intro hp <;>
        first
          | exact hs hp
          | exact truthy_ne_none h1
          | exact truthy_ne_none (by simpa using h1)
  | stop_step =>
      unfold stop_music; split_ifs <;> intro hp <;> simp_all
  | loop_step =>
      unfold toggle_loop; split_ifs <;> intro hp <;> exact hs hp
  | volume_step v =>
      intro hp; exact hs hp
  | seek_start_step b =>
      unfold seek_to_start
      split_ifs with h1 <;> intro hp <;>
        first
          | exact truthy_ne_none h1
          | exact hs hp
  | seek_fwd_step b =>
      unfold seek_forward_5
      split_ifs with h1 <;> intro hp <;>
        first
          | exact truthy_ne_none h1
          | exact hs hp
  | track_end_step =>
      intro hp; exact hs hp

lemma reachable_invPlay {s : AppState} (h : Reachable s) :
    s.is_playing = true → s.current_file ≠ none := by
  unfold Reachable at h
  induction h with
  | refl => intro hp; exact absurd hp (by decide)
  | tail _ hstep ih => exact step_invPlay hstep ih

/-- Claim C10: the invariant "`is_playing` implies `current_file` is set"
holds in every reachable state: it holds initially and every handler
preserves it. -/
theorem C10_playing_implies_file (s : AppState) (hr : Reachable s)
    (hp : s.is_playing = true) : s.current_file ≠ none :=
  reachable_invPlay hr hp

theorem C10_witness :
    (play_pause (open_file initState "a.mp3").1).1.current_file ≠ none := by
  have h1 : Reachable (open_file initState "a.mp3").1 :=
    Relation.ReflTransGen.tail Relation.ReflTransGen.refl
      (Step.open_step initState "a.mp3")
  have h2 : Reachable (play_pause (open_file initState "a.mp3").1).1 :=
    Relation.ReflTransGen.tail h1 (Step.play_step _)
  exact C10_playing_implies_file _ h2 (by decide)

end MP3Player
